import Mathlib

/-!
Shallow embedding of the filter-and-aggregate pipeline of `src/Dashboard.py`.

Rows model one observation each.  Timestamps are integers (seconds since
epoch); a `none` timestamp models a `NaT` produced by
`pd.to_datetime(..., errors="coerce")`.  Column presence is tracked by
Boolean flags on the table, mirroring the `"col" in df.columns` guards of
the script.  Dates coming from the sidebar `date_input` widget are day
indices; `pd.to_datetime(date)` is modelled as `day * 86400` (midnight).
-/

namespace Dashboard

/-- One observation row of the merged dataset. -/
structure Row where
  date_time : Option Int
  season : Option String
  area : Option String
  accident_count : Int
  vehicle_count : Int
  temperature_c : ℚ
  humidity : ℚ
  deriving DecidableEq

/-- The loaded dataframe: rows plus column-presence flags. -/
@[ext]
structure Table where
  rows : List Row
  hasSeason : Bool
  hasArea : Bool
  hasAccidentCount : Bool
  hasVehicleCount : Bool
  hasTemperature : Bool
  hasHumidity : Bool
  deriving DecidableEq

/-- The user-selected filter state (sidebar widgets). -/
structure FilterOptions where
  seasons : List String
  area : String
  minAccidents : Int
  startDate : Int
  endDate : Int
  deriving DecidableEq

/-- Membership test of `df_f["season"].isin(season)`: a missing (NaN)
season never matches. -/
def seasonMatch (o : FilterOptions) (r : Row) : Bool :=
  match r.season with
  | some s => o.seasons.contains s
  | none => false

/-- The guard `if season and "season" in df_f.columns`. -/
def seasonActive (t : Table) (o : FilterOptions) : Bool :=
  !o.seasons.isEmpty && t.hasSeason

/-- Season checkbox filter, `df_f = df_f[df_f["season"].isin(season)]`,
applied only when the selection is nonempty and the column exists. -/
def seasonFilter (t : Table) (o : FilterOptions) : Table :=
  if seasonActive t o then { t with rows := t.rows.filter (seasonMatch o) } else t

/-- The test `df_f["area"] == area`: a missing area never equals a string. -/
def areaMatch (o : FilterOptions) (r : Row) : Bool :=
  r.area == some o.area

/-- The guard `if area and area != "All" and "area" in df_f.columns`. -/
def areaActive (t : Table) (o : FilterOptions) : Bool :=
  !(o.area == "") && !(o.area == "All") && t.hasArea

/-- Area dropdown filter, `df_f = df_f[df_f["area"] == area]`. -/
def areaFilter (t : Table) (o : FilterOptions) : Table :=
  if areaActive t o then { t with rows := t.rows.filter (areaMatch o) } else t

/-- The test `df_f["accident_count"] >= acc_threshold`. -/
def accMatch (o : FilterOptions) (r : Row) : Bool :=
  decide (o.minAccidents ≤ r.accident_count)

/-- Minimum-accidents filter, applied when the column exists. -/
def accFilter (t : Table) (o : FilterOptions) : Table :=
  if t.hasAccidentCount then { t with rows := t.rows.filter (accMatch o) } else t

/-- Date-range test: `(df_f["date_time"] >= start) & (df_f["date_time"] <= end)`
with `start = to_datetime(range[0])` and
`end = to_datetime(range[1]) + 1 day - 1 second`.  A `NaT` timestamp fails
both pandas comparisons, hence never matches. -/
def dateMatch (o : FilterOptions) (r : Row) : Bool :=
  match r.date_time with
  | some v => decide (o.startDate * 86400 ≤ v ∧ v ≤ o.endDate * 86400 + 86400 - 1)
  | none => false

/-- Date-range filter; unconditional, `date_time` is guaranteed by the load. -/
def dateFilter (t : Table) (o : FilterOptions) : Table :=
  { t with rows := t.rows.filter (dateMatch o) }

/-- The whole filter block of the script (lines 200-217), in source order:
seasons, then area, then accident threshold, then date range. -/
def apply_filters (t : Table) (o : FilterOptions) : Table :=
  dateFilter (accFilter (areaFilter (seasonFilter t o) o) o) o

/-- The empty guard plus downstream: `if df_f.empty: st.warning(...); st.stop()`.
A filtered view with zero rows stops the computation with a recoverable
user-facing prompt; otherwise the nonempty view flows to metrics/charts. -/
inductive PipelineError where
  | emptyResult
  deriving DecidableEq

/-- Filter block followed by the empty guard (lines 200-222): the metrics
and chart stages only ever receive the `.ok` nonempty view. -/
def runPipeline (t : Table) (o : FilterOptions) : Except PipelineError Table :=
  let v := apply_filters t o
  if v.rows.isEmpty then .error .emptyResult else .ok v

/-- Sum of `f` over a list of rows (a pandas column `.sum()`). -/
def sumI (l : List Row) (f : Row → Int) : Int :=
  l.foldl (fun a r => a + f r) 0

/-- Mean of a rational column (`.mean()` as sum divided by count). -/
def meanQ (l : List ℚ) : ℚ :=
  l.foldl (· + ·) 0 / l.length

/-- KPI `avg_temp` (line 104): mean over `df` with fallback 0 when the
column is missing. -/
def avg_temp (t : Table) : ℚ :=
  if t.hasTemperature then meanQ (t.rows.map (·.temperature_c)) else 0

/-- KPI `avg_humidity` (line 105). -/
def avg_humidity (t : Table) : ℚ :=
  if t.hasHumidity then meanQ (t.rows.map (·.humidity)) else 0

/-- KPI `total_vehicles` (line 106). -/
def total_vehicles (t : Table) : Int :=
  if t.hasVehicleCount then sumI t.rows (·.vehicle_count) else 0

/-- KPI `total_accidents` (line 107). -/
def total_accidents (t : Table) : Int :=
  if t.hasAccidentCount then sumI t.rows (·.accident_count) else 0

/-- Day index of a timestamp, the daily resampling bin. -/
def dayOf (ts : Int) : Int := ts / 86400

/-- `series.resample("D").sum().fillna(0)`: bins run from the first to the
last day present; a day with no rows sums to 0.  Sums are integers, cast
to rationals as pandas later divides them. -/
def resampleDaily (rows : List Row) (f : Row → Int) : List ℚ :=
  match rows.filterMap (fun r => r.date_time.map dayOf) with
  | [] => []
  | d :: ds =>
    let lo := ds.foldl min d
    let hi := ds.foldl max d
    (List.range (hi - lo + 1).toNat).map (fun i =>
      ((sumI (rows.filter (fun r => r.date_time.map dayOf == some (lo + (i : Int)))) f : Int) : ℚ))

/-- `vehicle_daily` (line 228): daily sums of `vehicle_count`, or the empty
series when the column is missing. -/
def vehicle_daily (t : Table) : List ℚ :=
  if t.hasVehicleCount then resampleDaily t.rows (·.vehicle_count) else []

/-- Modelled from the spec: the accident time series is consumed by
`MetricsSnapshot` (`accident_series`, `accident_pct_change`) but its
aggregation is not present in `src/Dashboard.py`; per the spec it is the
daily-sum resampling of `accident_count`, exactly symmetric to
`vehicle_daily`. -/
def accident_daily (t : Table) : List ℚ :=
  if t.hasAccidentCount then resampleDaily t.rows (·.accident_count) else []

/-- Aggregation granularity selected in the sidebar. -/
inductive Granularity where
  | Daily
  | Weekly
  | Monthly
  deriving DecidableEq

/-- `delta_period` (lines 230-238): 7 for Daily, 1 for Weekly/Monthly. -/
def delta_period : Granularity → Nat
  | .Daily => 7
  | _ => 1

/-- Python `s.iloc[i]` with negative indexing; `none` models the
out-of-range `IndexError`. -/
def iloc (s : List ℚ) (i : Int) : Option ℚ :=
  let j : Int := if i < 0 then (s.length : Int) + i else i
  if j < 0 then none else s[j.toNat]?

/-- `pct_change(s, shift)` (lines 240-247); the `Option` records whether any
indexing step could raise. -/
def pct_change (s : List ℚ) (shift : Nat) : Option ℚ :=
  if s.length ≤ shift then some 0
  else do
    let curr ← iloc s (-1)
    let prev ← iloc s (-1 - (shift : Int))
    if prev = 0 then some 0 else some ((curr - prev) / prev * 100)

/-- Daily vehicle percent change of the filtered view (the spec's
`vehicle_pct_change` with Daily granularity, shift 7). -/
def vehicle_pct_daily (t : Table) (o : FilterOptions) : Option ℚ :=
  pct_change (vehicle_daily (apply_filters t o)) (delta_period .Daily)

/-- Modelled from the spec: `accident_pct_change` is absent from
`src/Dashboard.py`; per the spec it applies the same `pct_change` to the
accident series. -/
def accident_pct_daily (t : Table) (o : FilterOptions) : Option ℚ :=
  pct_change (accident_daily (apply_filters t o)) (delta_period .Daily)

/-- A raw CSV cell destined for `pd.to_datetime`: either parseable to a
timestamp or not. -/
inductive RawVal where
  | valid (ts : Int)
  | invalid
  deriving DecidableEq

/-- A row as read by `pd.read_csv`, before timestamp parsing. -/
structure RawRow where
  date_time : RawVal
  season : Option String
  area : Option String
  accident_count : Int
  vehicle_count : Int
  temperature_c : ℚ
  humidity : ℚ
  deriving DecidableEq

/-- The raw CSV: column-presence flags plus unparsed rows. -/
structure RawTable where
  hasDateTime : Bool
  hasSeason : Bool
  hasArea : Bool
  hasAccidentCount : Bool
  hasVehicleCount : Bool
  hasTemperature : Bool
  hasHumidity : Bool
  rows : List RawRow
  deriving DecidableEq

/-- `pd.to_datetime(x, errors="coerce")` on one cell: an unparseable value
becomes `NaT` (`none`), never an error. -/
def to_datetime_coerce : RawVal → Option Int
  | .valid ts => some ts
  | .invalid => none

/-- One row after the load's timestamp coercion. -/
def parseRow (r : RawRow) : Row :=
  { date_time := to_datetime_coerce r.date_time, season := r.season, area := r.area,
    accident_count := r.accident_count, vehicle_count := r.vehicle_count,
    temperature_c := r.temperature_c, humidity := r.humidity }

/-- `load_data` (lines 77-84): coerce `date_time` when the column exists,
else raise `KeyError("Missing required column: date_time")`, which the
caller surfaces with `st.error` and `st.stop()`. -/
def load_data (raw : RawTable) : Except String Table :=
  if raw.hasDateTime then
    .ok { rows := raw.rows.map parseRow, hasSeason := raw.hasSeason,
          hasArea := raw.hasArea, hasAccidentCount := raw.hasAccidentCount,
          hasVehicleCount := raw.hasVehicleCount, hasTemperature := raw.hasTemperature,
          hasHumidity := raw.hasHumidity }
  else .error "Missing required column: date_time"

/-- A sample row used for concrete instantiations. -/
def rTest : Row :=
  { date_time := some 0, season := some "Winter", area := some "Camden",
    accident_count := 1, vehicle_count := 5, temperature_c := 10, humidity := 50 }

/-- A one-row table with every optional column present. -/
def tTest : Table :=
  { rows := [rTest], hasSeason := true, hasArea := true, hasAccidentCount := true,
    hasVehicleCount := true, hasTemperature := true, hasHumidity := true }

/-- Filter options that keep `rTest`. -/
def oTest : FilterOptions :=
  { seasons := ["Winter"], area := "All", minAccidents := 0, startDate := 0, endDate := 0 }

/-- The 2024-01-01 row of the section-8 scenario (epoch seconds 1704067200). -/
def rJan1 : Row :=
  { date_time := some 1704067200, season := none, area := some "areaA",
    accident_count := 2, vehicle_count := 10, temperature_c := 0, humidity := 0 }

/-- The 2024-01-08 row of the section-8 scenario (epoch seconds 1704672000). -/
def rJan8 : Row :=
  { date_time := some 1704672000, season := none, area := some "areaA",
    accident_count := 0, vehicle_count := 20, temperature_c := 0, humidity := 0 }

/-- The two-row table of the section-8 percent-change scenario. -/
def tC3 : Table :=
  { rows := [rJan1, rJan8], hasSeason := false, hasArea := true, hasAccidentCount := true,
    hasVehicleCount := true, hasTemperature := false, hasHumidity := false }

/-- Pass-through options covering 2024-01-01 (day 19723) to 2024-01-08 (day 19730). -/
def oC3 : FilterOptions :=
  { seasons := [], area := "All", minAccidents := 0, startDate := 19723, endDate := 19730 }

/-- First row of the KPI divergence instance: Winter, 1 vehicle, 1 accident. -/
def rWinter : Row :=
  { date_time := some 0, season := some "Winter", area := some "Camden",
    accident_count := 1, vehicle_count := 1, temperature_c := 10, humidity := 40 }

/-- Second row of the KPI divergence instance: Summer, 3 vehicles, 5 accidents. -/
def rSummer : Row :=
  { date_time := some 0, season := some "Summer", area := some "Camden",
    accident_count := 5, vehicle_count := 3, temperature_c := 30, humidity := 80 }

/-- Two-row table whose KPI scalars differ between full and filtered data. -/
def tC1 : Table :=
  { rows := [rWinter, rSummer], hasSeason := true, hasArea := true, hasAccidentCount := true,
    hasVehicleCount := true, hasTemperature := true, hasHumidity := true }

/-- Options selecting only the Winter season; everything else passes. -/
def oC1 : FilterOptions :=
  { seasons := ["Winter"], area := "All", minAccidents := 0, startDate := 0, endDate := 0 }

/-- Options with an empty season checkbox selection. -/
def oEmptySeasons : FilterOptions :=
  { seasons := [], area := "All", minAccidents := 0, startDate := 0, endDate := 0 }

/-- Options selecting a season matched by no row of `tTest`. -/
def oSummerOnly : FilterOptions :=
  { seasons := ["Summer"], area := "All", minAccidents := 0, startDate := 0, endDate := 0 }

/-- A raw row whose timestamp cell cannot be parsed. -/
def rrBad : RawRow :=
  { date_time := .invalid, season := some "Winter", area := some "Camden",
    accident_count := 1, vehicle_count := 5, temperature_c := 10, humidity := 50 }

/-- A raw table that has the `date_time` column but one unparseable value. -/
def rawBad : RawTable :=
  { hasDateTime := true, hasSeason := true, hasArea := true, hasAccidentCount := true,
    hasVehicleCount := true, hasTemperature := true, hasHumidity := true, rows := [rrBad] }

/-- A raw table missing the `date_time` column entirely. -/
def rawNoCol : RawTable :=
  { hasDateTime := false, hasSeason := true, hasArea := true, hasAccidentCount := true,
    hasVehicleCount := true, hasTemperature := true, hasHumidity := true, rows := [rrBad] }

/-- A row whose timestamp was coerced to `NaT`. -/
def rNaT : Row :=
  { date_time := none, season := some "Winter", area := some "Camden",
    accident_count := 1, vehicle_count := 5, temperature_c := 10, humidity := 50 }

/-- A table holding a good row and a `NaT`-timestamp row. -/
def tWithNaT : Table :=
  { rows := [rTest, rNaT], hasSeason := true, hasArea := true, hasAccidentCount := true,
    hasVehicleCount := true, hasTemperature := true, hasHumidity := true }

/-! ## Helper lemmas about the filter block -/

lemma mem_apply_filters {t : Table} {o : FilterOptions} {r : Row} :
    r ∈ (apply_filters t o).rows ↔
      r ∈ t.rows ∧ (seasonActive t o = true → seasonMatch o r = true) ∧
        (areaActive t o = true → areaMatch o r = true) ∧
        (t.hasAccidentCount = true → accMatch o r = true) ∧
        dateMatch o r = true := by
  obtain ⟨rows, hs, ha, hacc, hv, htc, hh⟩ := t
  simp only [apply_filters, dateFilter, accFilter, areaFilter, seasonFilter, seasonActive,
    areaActive]
  cases hS : !o.seasons.isEmpty && hs <;>
    cases hA : !(o.area == "") && !(o.area == "All") && ha <;> cases hacc <;>
      simp [hS, hA, List.mem_filter, and_assoc] <;> tauto

lemma apply_filters_flags (t : Table) (o : FilterOptions) :
    (apply_filters t o).hasSeason = t.hasSeason ∧ (apply_filters t o).hasArea = t.hasArea ∧
      (apply_filters t o).hasAccidentCount = t.hasAccidentCount ∧
      (apply_filters t o).hasVehicleCount = t.hasVehicleCount ∧
      (apply_filters t o).hasTemperature = t.hasTemperature ∧
      (apply_filters t o).hasHumidity = t.hasHumidity := by
  obtain ⟨rows, hs, ha, hacc, hv, htc, hh⟩ := t
  simp only [apply_filters, dateFilter, accFilter, areaFilter, seasonFilter, seasonActive,
    areaActive]
  cases hS : !o.seasons.isEmpty && hs <;>
    cases hA : !(o.area == "") && !(o.area == "All") && ha <;> cases hacc <;>
      simp [hS, hA]

lemma apply_filters_fixed (t : Table) (o : FilterOptions)
    (h : ∀ r ∈ t.rows, (seasonActive t o = true → seasonMatch o r = true) ∧
      (areaActive t o = true → areaMatch o r = true) ∧
      (t.hasAccidentCount = true → accMatch o r = true) ∧ dateMatch o r = true) :
    apply_filters t o = t := by
  obtain ⟨rows, hs, ha, hacc, hv, htc, hh⟩ := t
  simp only [apply_filters, dateFilter, accFilter, areaFilter, seasonFilter, seasonActive,
    areaActive] at h ⊢
  cases hS : !o.seasons.isEmpty && hs <;>
    cases hA : !(o.area == "") && !(o.area == "All") && ha <;> cases hacc <;>
      simp only [hS, hA, if_true, if_false, Bool.true_eq_false, Bool.false_eq_true] <;>
      simp [List.filter_eq_self, List.mem_filter] <;>
      intro r hr <;> have hx := h r hr <;> simp [hS, hA] at hx <;> tauto

lemma iloc_from_end (s : List ℚ) (k : Nat) (h : k < s.length) :
    iloc s (-1 - (k : Int)) = some (s.getD (s.length - 1 - k) 0) := by
  have h0 : (0 : Nat) < s.length := by omega
  have hneg : (-1 - (k : Int)) < 0 := by omega
  have hj : ((s.length : Int) + (-1 - (k : Int))) = ((s.length - 1 - k : Nat) : Int) := by omega
  have hlt : s.length - 1 - k < s.length := by omega
  simp only [iloc, hneg, if_true, hj]
  rw [if_neg (by omega), Int.toNat_natCast, List.getElem?_eq_getElem hlt,
    List.getD_eq_getElem _ _ hlt]

lemma iloc_last (s : List ℚ) (h : 0 < s.length) :
    iloc s (-1) = some (s.getD (s.length - 1) 0) := by
  have := iloc_from_end s 0 h
  simpa using this

lemma pct_change_spec (s : List ℚ) (shift : Nat) :
    pct_change s shift =
      some (if s.length ≤ shift then 0
            else if s.getD (s.length - 1 - shift) 0 = 0 then 0
            else (s.getD (s.length - 1) 0 - s.getD (s.length - 1 - shift) 0) /
                  s.getD (s.length - 1 - shift) 0 * 100) := by
  by_cases h : s.length ≤ shift
  · simp [pct_change, h]
  · have hlen : shift < s.length := by omega
    have h0 : 0 < s.length := by omega
    simp only [pct_change, if_neg h]
    rw [iloc_last s h0, iloc_from_end s shift hlen]
    simp only [Option.bind_eq_bind, Option.some_bind]
    split <;> simp_all

/-! ## The claims -/

/-- C1: the claim says the four KPI scalars are computed over the filtered
view; the code (lines 104-107) computes them over the full unfiltered `df`
before the filter block even runs, while the KPI captions themselves say
"in the filtered dataset".  On `tC1` with only Winter selected, every one
of the four scalars shown differs from its value over the filtered view. -/
theorem kpi_scalars_computed_on_unfiltered_table :
    total_vehicles tC1 = 4 ∧ total_vehicles (apply_filters tC1 oC1) = 1 ∧
    total_accidents tC1 = 6 ∧ total_accidents (apply_filters tC1 oC1) = 1 ∧
    avg_temp tC1 = 20 ∧ avg_temp (apply_filters tC1 oC1) = 10 ∧
    avg_humidity tC1 = 60 ∧ avg_humidity (apply_filters tC1 oC1) = 40 := by
  have hview : apply_filters tC1 oC1 =
      { rows := [rWinter], hasSeason := true, hasArea := true, hasAccidentCount := true,
        hasVehicleCount := true, hasTemperature := true, hasHumidity := true } := by decide
  refine ⟨by decide, by rw [hview]; decide, by decide, by rw [hview]; decide, ?_, ?_, ?_, ?_⟩
  · norm_num [avg_temp, meanQ, tC1, rWinter, rSummer]
  · rw [hview]; norm_num [avg_temp, meanQ, rWinter]
  · norm_num [avg_humidity, meanQ, tC1, rWinter, rSummer]
  · rw [hview]; norm_num [avg_humidity, meanQ, rWinter]

/-- C2 counterexample: with the season checkboxes all unticked
(`seasons = []`), the pipeline does not block or signal: it returns the
view with every row of the table silently passed through. -/
theorem empty_season_selection_not_blocked :
    runPipeline tTest oEmptySeasons = Except.ok (apply_filters tTest oEmptySeasons) ∧
    (apply_filters tTest oEmptySeasons).rows = tTest.rows := by
  exact ⟨rfl, by decide⟩

/-- C2 amended: when the season selection is empty the season filter step
is skipped entirely (the guard `if season and ...` is false), so
`apply_filters` degenerates to the area/accident/date steps and all rows
pass through the season stage; no error is signalled to the caller. -/
theorem empty_season_selection_skips_filter (t : Table) (o : FilterOptions)
    (h : o.seasons = []) :
    apply_filters t o = dateFilter (accFilter (areaFilter t o) o) o := by
  unfold apply_filters seasonFilter seasonActive
  rw [h]
  simp

/-- C2 amended, witness at a concrete table and options. -/
theorem empty_season_selection_skips_filter_witness :
    oEmptySeasons.seasons = [] ∧
    apply_filters tTest oEmptySeasons =
      dateFilter (accFilter (areaFilter tTest oEmptySeasons) oEmptySeasons) oEmptySeasons :=
  ⟨rfl, empty_season_selection_skips_filter tTest oEmptySeasons rfl⟩

/-- C3 counterexample: on the section-8 scenario table the accident
percent change is -100.0 (prev = 2, curr = 0), not 0.0 as the claim
states. -/
theorem scenario_accident_pct_change_not_zero :
    accident_pct_daily tC3 oC3 = some (-100) ∧ accident_pct_daily tC3 oC3 ≠ some 0 := by
  have ha : accident_daily (apply_filters tC3 oC3) = [2, 0, 0, 0, 0, 0, 0, 0] := by decide
  have h7 : (7 : Int).toNat = 7 := rfl
  constructor
  · simp only [accident_pct_daily, delta_period, ha]
    norm_num [pct_change, iloc, h7]
  · simp only [accident_pct_daily, delta_period, ha]
    norm_num [pct_change, iloc, h7]

/-- C3 amended: with Daily granularity and shift 7 the scenario yields
`vehicle_pct_change = 100.0` as claimed, but `accident_pct_change = -100.0`
(prev = 2, curr = 0, so `(0 - 2) / 2 * 100`), not 0.0. -/
theorem scenario_pct_changes_daily_shift7 :
    vehicle_pct_daily tC3 oC3 = some 100 ∧ accident_pct_daily tC3 oC3 = some (-100) := by
  have hv : vehicle_daily (apply_filters tC3 oC3) = [10, 0, 0, 0, 0, 0, 0, 20] := by decide
  have ha : accident_daily (apply_filters tC3 oC3) = [2, 0, 0, 0, 0, 0, 0, 0] := by decide
  have h7 : (7 : Int).toNat = 7 := rfl
  constructor
  · simp only [vehicle_pct_daily, delta_period, hv]
    norm_num [pct_change, iloc, h7]
  · simp only [accident_pct_daily, delta_period, ha]
    norm_num [pct_change, iloc, h7]

/-- The parsed table produced by loading `rawBad`. -/
def tBadParsed : Table :=
  { rows := [rNaT], hasSeason := true, hasArea := true, hasAccidentCount := true,
    hasVehicleCount := true, hasTemperature := true, hasHumidity := true }

/-- C4 counterexample: a table whose `date_time` column is present but
holds one unparseable value loads successfully (`errors="coerce"`), with
the bad timestamp silently turned into a missing value - a partial result,
not a load failure. -/
theorem unparseable_timestamp_still_loads :
    load_data rawBad = Except.ok tBadParsed ∧ rNaT ∈ tBadParsed.rows ∧
      rNaT.date_time = none := by
  exact ⟨rfl, by decide, rfl⟩

/-- C4 amended: the load fails (with the fatal, session-halting
"Missing required column: date_time" error) exactly when the `date_time`
column is absent; when the column is present the load always succeeds and
individual parse failures are coerced to missing values rather than
failing the load. -/
theorem load_fails_only_when_column_missing (raw : RawTable) :
    (raw.hasDateTime = false → load_data raw = Except.error "Missing required column: date_time") ∧
    (raw.hasDateTime = true → load_data raw = Except.ok
      { rows := raw.rows.map parseRow, hasSeason := raw.hasSeason, hasArea := raw.hasArea,
        hasAccidentCount := raw.hasAccidentCount, hasVehicleCount := raw.hasVehicleCount,
        hasTemperature := raw.hasTemperature, hasHumidity := raw.hasHumidity }) := by
  constructor <;> intro h <;> simp [load_data, h]

/-- C4 amended, witness: the missing-column table fails the load. -/
theorem load_fails_only_when_column_missing_witness :
    rawNoCol.hasDateTime = false ∧
    load_data rawNoCol = Except.error "Missing required column: date_time" :=
  ⟨rfl, (load_fails_only_when_column_missing rawNoCol).1 rfl⟩

/-- A row timestamped 23:59:59 on day 0. -/
def rEndSec : Row :=
  { date_time := some 86399, season := some "Winter", area := some "Camden",
    accident_count := 1, vehicle_count := 5, temperature_c := 10, humidity := 50 }

/-- A one-row table holding the end-of-day row. -/
def tC5 : Table :=
  { rows := [rEndSec], hasSeason := true, hasArea := true, hasAccidentCount := true,
    hasVehicleCount := true, hasTemperature := true, hasHumidity := true }

/-- A single-day date range, day 0 to day 0. -/
def oC5 : FilterOptions :=
  { seasons := [], area := "All", minAccidents := 0, startDate := 0, endDate := 0 }

/-- C5: the date-range filter retains exactly the rows whose timestamp lies
in `[start_of_day(start), start_of_day(end) + 86399]`; in particular a row
at 23:59:59 on the end date is retained and a row at 00:00:00 on the
following day is excluded. -/
theorem date_range_end_inclusive (t : Table) (o : FilterOptions) (r : Row) :
    (r ∈ (dateFilter t o).rows ↔
      r ∈ t.rows ∧ ∃ v, r.date_time = some v ∧
        o.startDate * 86400 ≤ v ∧ v ≤ o.endDate * 86400 + 86399) ∧
    (r ∈ t.rows → r.date_time = some (o.endDate * 86400 + 86399) →
      o.startDate ≤ o.endDate → r ∈ (dateFilter t o).rows) ∧
    (r.date_time = some ((o.endDate + 1) * 86400) → r ∉ (dateFilter t o).rows) := by
  have hmem : ∀ r' : Row, r' ∈ (dateFilter t o).rows ↔ r' ∈ t.rows ∧ dateMatch o r' = true := by
    intro r'
    simp [dateFilter, List.mem_filter]
  have hiff : (r ∈ (dateFilter t o).rows ↔
      r ∈ t.rows ∧ ∃ v, r.date_time = some v ∧
        o.startDate * 86400 ≤ v ∧ v ≤ o.endDate * 86400 + 86399) := by
    rw [hmem]
    unfold dateMatch
    cases hd : r.date_time <;> simp [hd]
    omega
  refine ⟨hiff, ?_, ?_⟩
  · intro hrt hd hse
    rw [hiff]
    exact ⟨hrt, o.endDate * 86400 + 86399, hd, by omega, by omega⟩
  · intro hd hr
    obtain ⟨-, v, hv, -, hub⟩ := hiff.mp hr
    rw [hd] at hv
    cases hv
    omega

/-- C5 witness: with the range set to day 0 only, the 23:59:59 row is
retained by the date filter. -/
theorem date_range_end_inclusive_witness :
    rEndSec ∈ tC5.rows ∧ rEndSec ∈ (dateFilter tC5 oC5).rows :=
  ⟨by decide, (date_range_end_inclusive tC5 oC5 rEndSec).2.1 (by decide) (by decide) (by decide)⟩

/-- C6: for the shifts the pipeline uses (7 for Daily, 1 for
Weekly/Monthly) `pct_change` is total: the indexing and division never
fail, the result is 0 when the series has at most `shift` points or the
value `shift` periods before the last is 0, and otherwise equals
`(curr - prev) / prev * 100`. -/
theorem pct_change_total_for_pipeline_shifts (g : Granularity) (s : List ℚ) :
    pct_change s (delta_period g) =
      some (if s.length ≤ delta_period g then 0
            else if s.getD (s.length - 1 - delta_period g) 0 = 0 then 0
            else (s.getD (s.length - 1) 0 - s.getD (s.length - 1 - delta_period g) 0) /
                  s.getD (s.length - 1 - delta_period g) 0 * 100) :=
  pct_change_spec s (delta_period g)

/-- C7: the pipeline signals `EmptyResultError` exactly when the filtered
view has zero rows, and any view handed to the metric/chart stages is the
filtered view and is nonempty. -/
theorem empty_result_signalled (t : Table) (o : FilterOptions) :
    (runPipeline t o = Except.error PipelineError.emptyResult ↔ (apply_filters t o).rows = []) ∧
    (∀ v, runPipeline t o = Except.ok v → v = apply_filters t o ∧ v.rows ≠ []) := by
  unfold runPipeline
  by_cases h : (apply_filters t o).rows = []
  · simp [h]
  · have hne : (apply_filters t o).rows.isEmpty = false := by
      simp [List.isEmpty_iff, h]
    simp only [hne, Bool.false_eq_true, if_false]
    constructor
    · simp [h]
    · intro v hv
      cases hv
      exact ⟨rfl, h⟩

/-- C7 witness: a selection matching no row produces the empty-result
signal. -/
theorem empty_result_signalled_witness :
    runPipeline tTest oSummerOnly = Except.error PipelineError.emptyResult :=
  (empty_result_signalled tTest oSummerOnly).1.mpr (by decide)

/-- C8: every row of the filtered view is a row of the input table, and it
satisfies each active predicate: season membership when the season filter
is active, area equality when a concrete area is chosen, the accident
threshold when that column exists, and the date-range bounds always. -/
theorem apply_filters_subset_and_predicates (t : Table) (o : FilterOptions) (r : Row)
    (hr : r ∈ (apply_filters t o).rows) :
    r ∈ t.rows ∧
      (seasonActive t o = true → ∃ s, r.season = some s ∧ s ∈ o.seasons) ∧
      (areaActive t o = true → r.area = some o.area) ∧
      (t.hasAccidentCount = true → o.minAccidents ≤ r.accident_count) ∧
      (∃ v, r.date_time = some v ∧ o.startDate * 86400 ≤ v ∧
        v ≤ o.endDate * 86400 + 86399) := by
  obtain ⟨hmem, h1, h2, h3, h4⟩ := mem_apply_filters.mp hr
  refine ⟨hmem, ?_, ?_, ?_, ?_⟩
  · intro hS
    have hm := h1 hS
    unfold seasonMatch at hm
    cases hd : r.season with
    | none => rw [hd] at hm; simp at hm
    | some sv =>
      rw [hd] at hm
      exact ⟨sv, rfl, List.mem_of_elem_eq_true hm⟩
  · intro hA
    exact eq_of_beq (h2 hA)
  · intro hAcc
    exact of_decide_eq_true (h3 hAcc)
  · unfold dateMatch at h4
    cases hd : r.date_time with
    | none => rw [hd] at h4; simp at h4
    | some v =>
      rw [hd] at h4
      have hb := of_decide_eq_true h4
      exact ⟨v, rfl, hb.1, by omega⟩

/-- C8 witness at a concrete row retained by the filters. -/
theorem apply_filters_subset_and_predicates_witness :
    rTest ∈ (apply_filters tTest oTest).rows ∧ rTest ∈ tTest.rows :=
  ⟨by decide, (apply_filters_subset_and_predicates tTest oTest rTest (by decide)).1⟩

/-- C9: applying the filter block a second time with the same options is a
no-op: every surviving row already satisfies every active predicate, so
each filter step passes it again. -/
theorem apply_filters_idem (t : Table) (o : FilterOptions) :
    apply_filters (apply_filters t o) o = apply_filters t o := by
  have hf := apply_filters_flags t o
  apply apply_filters_fixed
  intro r hr
  obtain ⟨hmem, h1, h2, h3, h4⟩ := mem_apply_filters.mp hr
  refine ⟨?_, ?_, ?_, h4⟩
  · intro hS
    apply h1
    unfold seasonActive at hS ⊢
    rw [hf.1] at hS
    exact hS
  · intro hA
    apply h2
    unfold areaActive at hA ⊢
    rw [hf.2.1] at hA
    exact hA
  · intro hAcc
    apply h3
    rw [hf.2.2.1] at hAcc
    exact hAcc

/-- C10: a row whose timestamp was coerced to a missing value at load time
fails both date-range comparisons and is excluded by the date filter for
every choice of range; conversely every row of the filtered view carries a
parsed timestamp. -/
theorem coerced_timestamps_excluded (t : Table) (o : FilterOptions) (r : Row) :
    (r.date_time = none → r ∉ (apply_filters t o).rows) ∧
    (r ∈ (apply_filters t o).rows → ∃ v, r.date_time = some v) := by
  constructor
  · intro hnone hr
    have h4 := (mem_apply_filters.mp hr).2.2.2.2
    unfold dateMatch at h4
    rw [hnone] at h4
    simp at h4
  · intro hr
    have h4 := (mem_apply_filters.mp hr).2.2.2.2
    unfold dateMatch at h4
    cases hd : r.date_time with
    | none => rw [hd] at h4; simp at h4
    | some v => exact ⟨v, rfl⟩

/-- C10 witness: the `NaT` row of `tWithNaT` is dropped by the filters. -/
theorem coerced_timestamps_excluded_witness :
    rNaT.date_time = none ∧ rNaT ∉ (apply_filters tWithNaT oTest).rows :=
  ⟨rfl, (coerced_timestamps_excluded tWithNaT oTest rNaT).1 rfl⟩

end Dashboard
